import Mathlib

/-!
Shallow embedding of `src/service/DatabaseOptimizer.js` (class `DatabaseOptimizer`)
from the database-optimizer repository.

The class owns a lazily created mysql connection (`this.connection`, initially
`null`) and exposes: `connectToDatabase`, `runQuery`, `closeConnection`,
`getTableNames`, `analyzeTable`, `getDataTypeOptimizations`, `analyzeTables`.

Modelling conventions:
* The driver connection is a record with a `state` field (the code only ever
  distinguishes `state === 'disconnected'` from everything else, and the two
  values it can observe on this code path are `disconnected`/`connected`).
* Driver interactions are recorded in a trace of `OpEvent`s; the outcome of the
  underlying network handshake (respectively of a query) is a `Bool` parameter,
  since the driver itself is an external collaborator.
* JavaScript dynamic-field behaviour of the empty object `{}` returned by
  `analyzeTable`'s catch block is modelled with `Option` fields (`none` =
  `undefined`): `undefined === 0` and `undefined > 100000` are `false`,
  `undefined` is falsy, and reading `.length` of (or iterating over)
  `undefined` throws a `TypeError`.
* Query results are plain records; the SQL text itself is external.
-/

namespace DatabaseOptimizer

/-- Lifecycle states of the driver connection distinguished by the code. -/
inductive ConnState
  | disconnected
  | connected
deriving DecidableEq, Repr

/-- The mysql driver connection object (only the `state` field is read). -/
structure Conn where
  state : ConnState
deriving DecidableEq, Repr

/-- The optimizer's connection-manager state: `this.connection`, `none` = `null`. -/
structure ManagerState where
  connection : Option Conn
deriving DecidableEq, Repr

/-- `new DatabaseOptimizer()` sets `this.connection = null`. -/
def initialState : ManagerState := { connection := none }

/-- Observable interactions of the manager with the external driver, plus a
marker for each invocation of `closeConnection` itself. -/
inductive OpEvent
  | createConnection
  | connectCall
  | queryCall
  | endCall
  | closeInvoked
deriving DecidableEq, Repr

/-- Error values a rejected promise can carry on these code paths. -/
inductive JsError
  | connectionError
  | queryError
  | typeError
deriving DecidableEq, Repr

/-- The guard `!this.connection || this.connection.state === 'disconnected'`
used both by `connectToDatabase` (line 11) and `runQuery` (line 36). -/
def needsFresh (m : ManagerState) : Bool :=
  match m.connection with
  | none => true
  | some c =>
    match c.state with
    | ConnState.disconnected => true
    | ConnState.connected => false

/-- `connectToDatabase` (lines 9-32): if there is no connection or it is
disconnected, create a fresh connection object; then unconditionally call
`connection.connect`.  `connectOk` is the outcome of the driver handshake:
on success the connection is connected, on failure the promise rejects and no
established connection results. -/
def connectToDatabase (connectOk : Bool) (m : ManagerState) :
    Except JsError Unit × ManagerState × List OpEvent :=
  let createOps : List OpEvent :=
    if needsFresh m then [OpEvent.createConnection] else []
  if connectOk then
    (Except.ok (), { connection := some { state := ConnState.connected } },
      createOps ++ [OpEvent.connectCall])
  else
    (Except.error JsError.connectionError,
      { connection := some { state := ConnState.disconnected } },
      createOps ++ [OpEvent.connectCall])

/-- `runQuery` (lines 35-50): if there is no connection or it is disconnected,
await `connectToDatabase` (a single attempt, no retry; a rejection propagates
and the query is never issued); then call `connection.query`.  `queryOk` is
the outcome of the query callback. -/
def runQuery (connectOk queryOk : Bool) (m : ManagerState) :
    Except JsError Unit × ManagerState × List OpEvent :=
  if needsFresh m then
    match connectToDatabase connectOk m with
    | (Except.ok _, m1, ops) =>
      ((if queryOk then Except.ok () else Except.error JsError.queryError), m1,
        ops ++ [OpEvent.queryCall])
    | (Except.error e, m1, ops) => (Except.error e, m1, ops)
  else
    ((if queryOk then Except.ok () else Except.error JsError.queryError), m,
      [OpEvent.queryCall])

/-- `closeConnection` (lines 53-58): if a connection exists and its state is not
`'disconnected'`, call `connection.end` and await it (the promise only ever
resolves — the executor ignores errors), leaving the ended connection object in
place with state `'disconnected'`; otherwise do nothing.  The `closeInvoked`
event marks the method call itself; `endCall` is the driver-level close. -/
def closeConnection (m : ManagerState) : ManagerState × List OpEvent :=
  match m.connection with
  | none => (m, [OpEvent.closeInvoked])
  | some c =>
    match c.state with
    | ConnState.disconnected => (m, [OpEvent.closeInvoked])
    | ConnState.connected =>
      ({ connection := some { state := ConnState.disconnected } },
        [OpEvent.closeInvoked, OpEvent.endCall])

/-- A manager state with no live connection (never opened, or closed). -/
def isDisconnected (m : ManagerState) : Bool :=
  match m.connection with
  | none => true
  | some c =>
    match c.state with
    | ConnState.disconnected => true
    | ConnState.connected => false

/-- One row of `SHOW INDEXES FROM ??` as read by the code (lines 123-125):
`Key_name`, `Index_type`, `Non_unique`. -/
structure IndexEntry where
  Key_name : String
  Index_type : String
  Non_unique : Nat
deriving DecidableEq, Repr

/-- One row of `SHOW TABLE STATUS LIKE ?` as read by the code (lines 109-120):
the free-text `Comment` field and the table `Name`. -/
structure TableStatusRow where
  Comment : String
  Name : String
deriving DecidableEq, Repr

/-- One row of the low-cardinality column query (`COLUMN_NAME`, `cardinality`). -/
structure CardinalityRow where
  COLUMN_NAME : String
  cardinality : Nat
deriving DecidableEq, Repr

/-- One row of the column-type query (`COLUMN_NAME`, `COLUMN_TYPE`). -/
structure ColumnDataType where
  COLUMN_NAME : String
  COLUMN_TYPE : String
deriving DecidableEq, Repr

/-- An element pushed onto the `unusedIndexes` accumulator (lines 114-117). -/
structure UnusedIndexEntry where
  index_name : String
  table_name : String
deriving DecidableEq, Repr

/-- A `{ tableName, suggestion }` pair pushed onto the output (lines 190-228). -/
structure Suggestion where
  tableName : String
  suggestion : String
deriving DecidableEq, Repr

/-- The `tableStats` record built by a successful `analyzeTable` (lines 128-135). -/
structure TableStats where
  indexCount : Nat
  rowCount : Nat
  columnCardinality : List CardinalityRow
  unusedIndexes : List UnusedIndexEntry
  hasForeignKeys : Bool
  columnDataTypes : List ColumnDataType
deriving DecidableEq, Repr

/-- The value `analyzeTable` actually hands to its caller, as a JavaScript
object whose fields may be `undefined` (`none`): a successful analysis has
every field present, while the catch block's `return {}` (line 140) has every
field `undefined`. -/
structure RawStats where
  indexCount : Option Nat
  rowCount : Option Nat
  columnCardinality : Option (List CardinalityRow)
  unusedIndexes : Option (List UnusedIndexEntry)
  hasForeignKeys : Option Bool
  columnDataTypes : Option (List ColumnDataType)
deriving DecidableEq, Repr

/-- View a fully populated `tableStats` record as the object the caller sees. -/
def toRaw (ts : TableStats) : RawStats :=
  { indexCount := some ts.indexCount
    rowCount := some ts.rowCount
    columnCardinality := some ts.columnCardinality
    unusedIndexes := some ts.unusedIndexes
    hasForeignKeys := some ts.hasForeignKeys
    columnDataTypes := some ts.columnDataTypes }

/-- JavaScript `x === 0` where `x` may be `undefined`: `undefined === 0` is
`false`. -/
def jsStrictEqZero : Option Nat → Bool
  | some k => k == 0
  | none => false

/-- JavaScript `x > t` where `x` may be `undefined`: any comparison with
`undefined` is `false`. -/
def jsGtNum : Option Nat → Nat → Bool
  | some k, t => decide (t < k)
  | none, _ => false

/-- JavaScript truthiness of a possibly-`undefined` boolean: `undefined` is
falsy. -/
def jsTruthy : Option Bool → Bool
  | some b => b
  | none => false

/-- Reading a property of (or iterating over) a possibly-`undefined` object
value: on `undefined` this throws a `TypeError`. -/
def jsField {α : Type} : Option α → Except JsError α
  | some v => Except.ok v
  | none => Except.error JsError.typeError

/-- Does `l` contain `target` as a contiguous run of characters? -/
def hasSubstrChars (target : List Char) : List Char → Bool
  | [] => target.isEmpty
  | b :: bs => List.isPrefixOf target (b :: bs) || hasSubstrChars target bs

/-- JavaScript `s.includes(target)`: substring containment. -/
def jsIncludes (s target : String) : Bool :=
  hasSubstrChars target.data s.data

/-- Split a character list at every occurrence of `sep` (the separator is
dropped; empty pieces are kept, and the empty input yields one empty piece). -/
def splitChars (sep : Char) : List Char → List (List Char)
  | [] => [[]]
  | c :: rest =>
    match splitChars sep rest with
    | [] => if c == sep then [[], []] else [[c]]
    | h :: t => if c == sep then [] :: h :: t else (c :: h) :: t

/-- JavaScript `s.split(sep)` for a one-character separator: `"a,b"` gives
`["a", "b"]`, `""` gives `[""]`, and empty pieces are kept. -/
def jsSplit (s : String) (sep : Char) : List String :=
  (splitChars sep s.data).map (fun cs => String.mk cs)

/-- JavaScript `s.toLowerCase()` on the character range this code meets
(ASCII-identical to Lean's `Char.toLower`). -/
def jsToLower (s : String) : String :=
  String.mk (s.data.map Char.toLower)

/-- Body of the `reduce` at lines 109-120: split the row's `Comment` on `','`,
keep the fragments that `include` the substring `"Unused"`, and, if any
remain, push one entry joining them with `', '` tagged with the row's `Name`. -/
def unusedBody (acc : List UnusedIndexEntry) (row : TableStatusRow) :
    List UnusedIndexEntry :=
  let indexes := jsSplit row.Comment ','
  let unused := indexes.filter (fun index => jsIncludes index "Unused")
  if unused.length > 0 then
    acc ++ [{ index_name := String.intercalate ", " unused, table_name := row.Name }]
  else acc

/-- The `unusedIndexes` computation of `analyzeTable` (lines 109-120). -/
def computeUnusedIndexes (tableStatus : List TableStatusRow) :
    List UnusedIndexEntry :=
  tableStatus.foldl unusedBody []

/-- The `hasForeignKeys` computation of `analyzeTable` (lines 123-125):
`indexes.some(index => index.Key_name !== 'PRIMARY' &&
index.Index_type === 'BTREE' && index.Non_unique === 0)`. -/
def hasForeignKeys (indexes : List IndexEntry) : Bool :=
  indexes.any fun index =>
    (index.Key_name != "PRIMARY") && (index.Index_type == "BTREE") &&
      (index.Non_unique == 0)

/-- The result rows of the five per-table queries issued in parallel at lines
100-106 (`rowCount` is `rowCountResult[0].rowCount`). -/
structure TableQueryResults where
  indexes : List IndexEntry
  rowCount : Nat
  columnCardinality : List CardinalityRow
  tableStatus : List TableStatusRow
  columnDataTypes : List ColumnDataType
deriving Repr

/-- The `tableStats` record a successful `analyzeTable` assembles (lines 128-135). -/
def statsOf (q : TableQueryResults) : TableStats :=
  { indexCount := q.indexes.length
    rowCount := q.rowCount
    columnCardinality := q.columnCardinality
    unusedIndexes := computeUnusedIndexes q.tableStatus
    hasForeignKeys := hasForeignKeys q.indexes
    columnDataTypes := q.columnDataTypes }

/-- `analyzeTable` (lines 73-142): `some q` is the case in which all five
queries succeed (yielding the rows `q`); `none` is the case in which at least
one fails, so `Promise.all` rejects and the catch block logs the error and
returns the empty object `{}` (every field `undefined`). -/
def analyzeTable (queryOutcome : Option TableQueryResults) : RawStats :=
  match queryOutcome with
  | some q => toRaw (statsOf q)
  | none =>
    { indexCount := none, rowCount := none, columnCardinality := none,
      unusedIndexes := none, hasForeignKeys := none, columnDataTypes := none }

/-- A truthy value the property read `dataTypeMap[currentDataType]` (line 161)
can produce: one of the eight own entries of the object literal (a string), an
inherited `Object.prototype` method (a function), or `Object.prototype` itself
(via the inherited `__proto__` accessor). -/
inductive MapHit
  | own (value : String)
  | builtinFn (name : String)
  | protoObject
deriving DecidableEq, Repr

/-- How the template literal at line 166 renders a looked-up value: an own
entry is the string itself; an inherited built-in function renders as V8
native-function source text; `Object.prototype` renders as
`"[object Object]"`. -/
def jsDisplay : MapHit → String
  | MapHit.own value => value
  | MapHit.builtinFn name => "function " ++ name ++ "() \x7b [native code] \x7d"
  | MapHit.protoObject => "[object Object]"

/-- JavaScript `currentDataType !== optimizedDataType` (line 163): a genuine
string comparison for an own entry; for an inherited function or object the
operands have different runtime types, so strict inequality always holds. -/
def jsStrictNe (t : String) : MapHit → Bool
  | MapHit.own value => t != value
  | MapHit.builtinFn _ => true
  | MapHit.protoObject => true

/-- The property read `dataTypeMap[currentDataType]` on the object literal of
lines 147-156.  Besides the eight own entries, a JavaScript object literal
inherits from `Object.prototype`, so the lookup also finds the inherited
built-ins (`constructor`, `hasOwnProperty`, `isPrototypeOf`,
`propertyIsEnumerable`, `toLocaleString`, `toString`, `valueOf`, the four
`__define...__`/`__lookup...__` methods, and the `__proto__` accessor, which
returns `Object.prototype`).  Every `some` result is truthy (own entries are
non-empty strings, inherited values are functions or an object), so the
truthiness test `if (optimizedDataType && ...)` at line 163 coincides with
`some`-ness. -/
def dataTypeMap (t : String) : Option MapHit :=
  if t = "int" then some (MapHit.own "smallint")
  else if t = "bigint" then some (MapHit.own "int")
  else if t = "float" then some (MapHit.own "decimal")
  else if t = "double" then some (MapHit.own "decimal")
  else if t = "char" then some (MapHit.own "varchar")
  else if t = "text" then some (MapHit.own "varchar")
  else if t = "longtext" then some (MapHit.own "text")
  else if t = "date" then some (MapHit.own "datetime")
  else if t = "constructor" then some (MapHit.builtinFn "Object")
  else if t = "hasOwnProperty" then some (MapHit.builtinFn "hasOwnProperty")
  else if t = "isPrototypeOf" then some (MapHit.builtinFn "isPrototypeOf")
  else if t = "propertyIsEnumerable" then some (MapHit.builtinFn "propertyIsEnumerable")
  else if t = "toLocaleString" then some (MapHit.builtinFn "toLocaleString")
  else if t = "toString" then some (MapHit.builtinFn "toString")
  else if t = "valueOf" then some (MapHit.builtinFn "valueOf")
  else if t = "__defineGetter__" then some (MapHit.builtinFn "__defineGetter__")
  else if t = "__defineSetter__" then some (MapHit.builtinFn "__defineSetter__")
  else if t = "__lookupGetter__" then some (MapHit.builtinFn "__lookupGetter__")
  else if t = "__lookupSetter__" then some (MapHit.builtinFn "__lookupSetter__")
  else if t = "__proto__" then some MapHit.protoObject
  else none

/-- The template literal at line 166 (association of `++` chosen so the
constant first segment is the left operand). -/
def dtText (columnName currentDataType optimizedDataType : String) : String :=
  "Consider optimizing data type of column \"" ++
    (columnName ++ ("\" from \"" ++ (currentDataType ++ ("\" to \"" ++
      (optimizedDataType ++ "\" to save storage space.")))))

/-- Body of the `for (const column of columnDataTypes)` loop (lines 158-169). -/
def dtBody (tableName : String) (suggestions : List Suggestion)
    (column : ColumnDataType) : List Suggestion :=
  let columnName := column.COLUMN_NAME
  let currentDataType := jsToLower column.COLUMN_TYPE
  match dataTypeMap currentDataType with
  | some optimizedDataType =>
    if jsStrictNe currentDataType optimizedDataType then
      suggestions ++
        [{ tableName := tableName
           suggestion := dtText columnName currentDataType
             (jsDisplay optimizedDataType) }]
    else suggestions
  | none => suggestions

/-- `getDataTypeOptimizations` (lines 145-172): a pure function of its two
arguments. -/
def getDataTypeOptimizations (tableName : String)
    (columnDataTypes : List ColumnDataType) : List Suggestion :=
  columnDataTypes.foldl (dtBody tableName) []

/-- Suggestion text of rule 1 (line 192). -/
def addIndexText : String := "Add an index to improve query performance."

/-- Suggestion text of rule 2 (line 199). -/
def partitionText : String :=
  "Consider partitioning the table to improve query performance."

/-- Suggestion text of rule 3 (line 206). -/
def cardinalityText (columnCardinality : List CardinalityRow) : String :=
  "Consider adding an index or partitioning for columns with low cardinality: " ++
    String.intercalate ", " (columnCardinality.map (fun row => row.COLUMN_NAME))

/-- Suggestion text of rule 4 (line 213). -/
def unusedText (unusedIndexes : List UnusedIndexEntry) : String :=
  "Remove unused indexes: " ++
    String.intercalate ", " (unusedIndexes.map (fun row => row.index_name))

/-- Suggestion text of rule 5 (line 220). -/
def fkText : String :=
  "Add foreign keys to establish relationships between tables."

/-- The per-table suggestion rules of `analyzeTables` (lines 189-229) applied
to a fully populated `tableStats` record, in source order: index count, row
count, cardinality, unused indexes, foreign keys, data types. -/
def tableRuleSuggestions (tableName : String) (ts : TableStats) :
    List Suggestion :=
  (if ts.indexCount = 0 then [{ tableName := tableName, suggestion := addIndexText }] else []) ++
  (if 100000 < ts.rowCount then [{ tableName := tableName, suggestion := partitionText }] else []) ++
  (if 0 < ts.columnCardinality.length then
    [{ tableName := tableName, suggestion := cardinalityText ts.columnCardinality }] else []) ++
  (if 0 < ts.unusedIndexes.length then
    [{ tableName := tableName, suggestion := unusedText ts.unusedIndexes }] else []) ++
  (if ts.hasForeignKeys = false then [{ tableName := tableName, suggestion := fkText }] else []) ++
  (let dataTypeOptimizations := getDataTypeOptimizations tableName ts.columnDataTypes
   if 0 < dataTypeOptimizations.length then dataTypeOptimizations else [])

/-- The same per-table rules evaluated against the object `analyzeTable`
actually returned, with JavaScript semantics for possibly-`undefined` fields
(lines 189-229): `tableStats.indexCount === 0` and
`tableStats.rowCount > 100000` are simply `false` on `undefined`, but
`tableStats.columnCardinality.length` (line 203),
`tableStats.unusedIndexes.length` (line 210) and the `for..of` over
`tableStats.columnDataTypes` (line 158) throw a `TypeError` on `undefined`,
and `!tableStats.hasForeignKeys` (line 217) is `true` on `undefined`. -/
def tableRuleSuggestionsRaw (tableName : String) (ts : RawStats) :
    Except JsError (List Suggestion) :=
  let s1 := if jsStrictEqZero ts.indexCount then
    [{ tableName := tableName, suggestion := addIndexText }] else []
  let s2 := if jsGtNum ts.rowCount 100000 then
    [{ tableName := tableName, suggestion := partitionText }] else []
  match jsField ts.columnCardinality with
  | Except.error e => Except.error e
  | Except.ok card =>
    let s3 := if 0 < card.length then
      [{ tableName := tableName, suggestion := cardinalityText card }] else []
    match jsField ts.unusedIndexes with
    | Except.error e => Except.error e
    | Except.ok unused =>
      let s4 := if 0 < unused.length then
        [{ tableName := tableName, suggestion := unusedText unused }] else []
      let s5 := if jsTruthy ts.hasForeignKeys = false then
        [{ tableName := tableName, suggestion := fkText }] else []
      match jsField ts.columnDataTypes with
      | Except.error e => Except.error e
      | Except.ok cols =>
        let dataTypeOptimizations := getDataTypeOptimizations tableName cols
        let s6 := if 0 < dataTypeOptimizations.length then dataTypeOptimizations else []
        Except.ok (s1 ++ s2 ++ s3 ++ s4 ++ s5 ++ s6)

/-- The database as seen through the driver: whether the handshake succeeds,
whether `SHOW TABLES` succeeds and what it returns, and the outcome of the
five per-table queries for each table name (`none` = at least one failed). -/
structure DbEnv where
  connectOk : Bool
  showTablesOk : Bool
  tableNames : List String
  tableData : String → Option TableQueryResults

/-- `getTableNames` (lines 61-70): runs `SHOW TABLES`; on failure logs and
returns the empty list (the error is absorbed). -/
def getTableNames (env : DbEnv) : List String :=
  if env.showTablesOk then env.tableNames else []

/-- The `for (const tableName of tableNames)` loop of `analyzeTables` (lines
184-230): each iteration analyzes one table and appends its suggestions; an
exception thrown while evaluating the rules aborts the whole loop. -/
def tablesLoop (env : DbEnv) : List String → Except JsError (List Suggestion)
  | [] => Except.ok []
  | n :: rest =>
    match tableRuleSuggestionsRaw n (analyzeTable (env.tableData n)) with
    | Except.error e => Except.error e
    | Except.ok s =>
      match tablesLoop env rest with
      | Except.error e => Except.error e
      | Except.ok r => Except.ok (s ++ r)

/-- Result of one `analyzeTables()` call: the returned suggestion list, the
final connection-manager state, and the trace of driver interactions. -/
structure RunOutcome where
  result : List Suggestion
  finalState : ManagerState
  trace : List OpEvent
deriving Repr

/-- `analyzeTables` (lines 175-243): connect, list tables, loop over them, and
close the connection before returning; the catch block logs, closes the
connection and returns `[]`.  Per-table query traffic is abstracted into
`env.tableData` (each of those queries goes through `runQuery` while the
connection is established). -/
def analyzeTables (env : DbEnv) (m : ManagerState) : RunOutcome :=
  match connectToDatabase env.connectOk m with
  | (Except.error _, m1, ops1) =>
    let (m2, ops2) := closeConnection m1
    { result := [], finalState := m2, trace := ops1 ++ ops2 }
  | (Except.ok _, m1, ops1) =>
    match tablesLoop env (getTableNames env) with
    | Except.ok s =>
      let (m2, ops2) := closeConnection m1
      { result := s, finalState := m2, trace := ops1 ++ ops2 }
    | Except.error _ =>
      let (m2, ops2) := closeConnection m1
      { result := [], finalState := m2, trace := ops1 ++ ops2 }

/-- Per-column step of the data-type pass: lower-case the declared type, look
it up (prototype chain included), and emit a suggestion exactly when the
lookup finds a truthy value that is strictly unequal to the current value.
For lower-cased types outside `objectProtoKeys` this is precisely the spec's
"a mapped value exists in the static downgrade map and differs". -/
def dtStep (tableName : String) (column : ColumnDataType) : Option Suggestion :=
  match dataTypeMap (jsToLower column.COLUMN_TYPE) with
  | some optimizedDataType =>
    if jsStrictNe (jsToLower column.COLUMN_TYPE) optimizedDataType then
      some { tableName := tableName
             suggestion := dtText column.COLUMN_NAME (jsToLower column.COLUMN_TYPE)
               (jsDisplay optimizedDataType) }
    else none
  | none => none

/-- Per-row step of unused-index extraction, stated as the spec describes it:
split the comment on commas, keep the fragments containing `"Unused"`, and if
any remain emit one entry joining them with the owning table name. -/
def unusedStep (row : TableStatusRow) : Option UnusedIndexEntry :=
  let unused := (jsSplit row.Comment ',').filter (fun fragment => jsIncludes fragment "Unused")
  if 0 < unused.length then
    some { index_name := String.intercalate ", " unused, table_name := row.Name }
  else none

/-- The eight own keys of the `dataTypeMap` object literal: the static
downgrade map proper. -/
def dataTypeKeys : List String :=
  ["int", "bigint", "float", "double", "char", "text", "longtext", "date"]

/-- The property names the object literal inherits from `Object.prototype`. -/
def objectProtoKeys : List String :=
  ["constructor", "hasOwnProperty", "isPrototypeOf", "propertyIsEnumerable",
   "toLocaleString", "toString", "valueOf", "__defineGetter__", "__defineSetter__",
   "__lookupGetter__", "__lookupSetter__", "__proto__"]

lemma dataTypeMap_of_no_key (t : String)
    (e1 : ¬t = "int") (e2 : ¬t = "bigint") (e3 : ¬t = "float") (e4 : ¬t = "double")
    (e5 : ¬t = "char") (e6 : ¬t = "text") (e7 : ¬t = "longtext") (e8 : ¬t = "date")
    (e9 : ¬t = "constructor") (e10 : ¬t = "hasOwnProperty") (e11 : ¬t = "isPrototypeOf")
    (e12 : ¬t = "propertyIsEnumerable") (e13 : ¬t = "toLocaleString") (e14 : ¬t = "toString")
    (e15 : ¬t = "valueOf") (e16 : ¬t = "__defineGetter__") (e17 : ¬t = "__defineSetter__")
    (e18 : ¬t = "__lookupGetter__") (e19 : ¬t = "__lookupSetter__") (e20 : ¬t = "__proto__") :
    dataTypeMap t = none := by
  unfold dataTypeMap
  simp [e1, e2, e3, e4, e5, e6, e7, e8, e9, e10, e11, e12, e13, e14, e15, e16, e17,
    e18, e19, e20]

lemma dataTypeMap_eq_none_iff (t : String) :
    dataTypeMap t = none ↔ (t ∉ dataTypeKeys ∧ t ∉ objectProtoKeys) := by
  by_cases e1 : t = "int"
  · subst e1; decide
  by_cases e2 : t = "bigint"
  · subst e2; decide
  by_cases e3 : t = "float"
  · subst e3; decide
  by_cases e4 : t = "double"
  · subst e4; decide
  by_cases e5 : t = "char"
  · subst e5; decide
  by_cases e6 : t = "text"
  · subst e6; decide
  by_cases e7 : t = "longtext"
  · subst e7; decide
  by_cases e8 : t = "date"
  · subst e8; decide
  by_cases e9 : t = "constructor"
  · subst e9; decide
  by_cases e10 : t = "hasOwnProperty"
  · subst e10; decide
  by_cases e11 : t = "isPrototypeOf"
  · subst e11; decide
  by_cases e12 : t = "propertyIsEnumerable"
  · subst e12; decide
  by_cases e13 : t = "toLocaleString"
  · subst e13; decide
  by_cases e14 : t = "toString"
  · subst e14; decide
  by_cases e15 : t = "valueOf"
  · subst e15; decide
  by_cases e16 : t = "__defineGetter__"
  · subst e16; decide
  by_cases e17 : t = "__defineSetter__"
  · subst e17; decide
  by_cases e18 : t = "__lookupGetter__"
  · subst e18; decide
  by_cases e19 : t = "__lookupSetter__"
  · subst e19; decide
  by_cases e20 : t = "__proto__"
  · subst e20; decide
  rw [dataTypeMap_of_no_key t e1 e2 e3 e4 e5 e6 e7 e8 e9 e10 e11 e12 e13 e14 e15 e16
    e17 e18 e19 e20]
  simp [dataTypeKeys, objectProtoKeys, e1, e2, e3, e4, e5, e6, e7, e8, e9, e10, e11,
    e12, e13, e14, e15, e16, e17, e18, e19, e20]

lemma dataTypeMap_own_iff (t : String) :
    (∃ v, dataTypeMap t = some (MapHit.own v)) ↔ t ∈ dataTypeKeys := by
  by_cases e1 : t = "int"
  · subst e1; simp [dataTypeMap, dataTypeKeys]
  by_cases e2 : t = "bigint"
  · subst e2; simp [dataTypeMap, dataTypeKeys]
  by_cases e3 : t = "float"
  · subst e3; simp [dataTypeMap, dataTypeKeys]
  by_cases e4 : t = "double"
  · subst e4; simp [dataTypeMap, dataTypeKeys]
  by_cases e5 : t = "char"
  · subst e5; simp [dataTypeMap, dataTypeKeys]
  by_cases e6 : t = "text"
  · subst e6; simp [dataTypeMap, dataTypeKeys]
  by_cases e7 : t = "longtext"
  · subst e7; simp [dataTypeMap, dataTypeKeys]
  by_cases e8 : t = "date"
  · subst e8; simp [dataTypeMap, dataTypeKeys]
  by_cases e9 : t = "constructor"
  · subst e9; simp [dataTypeMap, dataTypeKeys]
  by_cases e10 : t = "hasOwnProperty"
  · subst e10; simp [dataTypeMap, dataTypeKeys]
  by_cases e11 : t = "isPrototypeOf"
  · subst e11; simp [dataTypeMap, dataTypeKeys]
  by_cases e12 : t = "propertyIsEnumerable"
  · subst e12; simp [dataTypeMap, dataTypeKeys]
  by_cases e13 : t = "toLocaleString"
  · subst e13; simp [dataTypeMap, dataTypeKeys]
  by_cases e14 : t = "toString"
  · subst e14; simp [dataTypeMap, dataTypeKeys]
  by_cases e15 : t = "valueOf"
  · subst e15; simp [dataTypeMap, dataTypeKeys]
  by_cases e16 : t = "__defineGetter__"
  · subst e16; simp [dataTypeMap, dataTypeKeys]
  by_cases e17 : t = "__defineSetter__"
  · subst e17; simp [dataTypeMap, dataTypeKeys]
  by_cases e18 : t = "__lookupGetter__"
  · subst e18; simp [dataTypeMap, dataTypeKeys]
  by_cases e19 : t = "__lookupSetter__"
  · subst e19; simp [dataTypeMap, dataTypeKeys]
  by_cases e20 : t = "__proto__"
  · subst e20; simp [dataTypeMap, dataTypeKeys]
  rw [dataTypeMap_of_no_key t e1 e2 e3 e4 e5 e6 e7 e8 e9 e10 e11 e12 e13 e14 e15 e16
    e17 e18 e19 e20]
  simp [dataTypeKeys, e1, e2, e3, e4, e5, e6, e7, e8]

lemma dtBody_eq (n : String) (acc : List Suggestion) (c : ColumnDataType) :
    dtBody n acc c = acc ++ (dtStep n c).toList := by
  unfold dtBody dtStep
  rcases hmap : dataTypeMap (jsToLower c.COLUMN_TYPE) with _ | o
  · simp [hmap]
  · simp only [hmap]
    by_cases h : jsStrictNe (jsToLower c.COLUMN_TYPE) o = true <;> simp [h]

lemma foldl_dtBody (n : String) (cols : List ColumnDataType) (acc : List Suggestion) :
    cols.foldl (dtBody n) acc = acc ++ cols.filterMap (dtStep n) := by
  induction cols generalizing acc with
  | nil => simp
  | cons c rest ih =>
    rw [List.foldl_cons, dtBody_eq, ih, List.filterMap_cons]
    cases dtStep n c <;> simp

lemma getDataTypeOptimizations_eq (n : String) (cols : List ColumnDataType) :
    getDataTypeOptimizations n cols = cols.filterMap (dtStep n) := by
  unfold getDataTypeOptimizations
  rw [foldl_dtBody]
  simp

lemma unusedBody_eq (acc : List UnusedIndexEntry) (row : TableStatusRow) :
    unusedBody acc row = acc ++ (unusedStep row).toList := by
  unfold unusedBody unusedStep
  by_cases h :
      0 < ((jsSplit row.Comment ',').filter (fun fragment => jsIncludes fragment "Unused")).length <;>
    simp [h]

lemma foldl_unusedBody (rows : List TableStatusRow) (acc : List UnusedIndexEntry) :
    rows.foldl unusedBody acc = acc ++ rows.filterMap unusedStep := by
  induction rows generalizing acc with
  | nil => simp
  | cons r rest ih =>
    rw [List.foldl_cons, unusedBody_eq, ih, List.filterMap_cons]
    cases unusedStep r <;> simp

lemma computeUnusedIndexes_eq (rows : List TableStatusRow) :
    computeUnusedIndexes rows = rows.filterMap unusedStep := by
  unfold computeUnusedIndexes
  rw [foldl_unusedBody]
  simp

/-- Two strings differing within their first ten characters differ, even after
the second is extended on the right. -/
lemma ne_lit_append (a b t : String) (h10 : 10 ≤ b.data.length)
    (hne : a.data.take 10 ≠ b.data.take 10) : a ≠ b ++ t := by
  intro he
  apply hne
  rw [he]
  show (b.data ++ t.data).take 10 = b.data.take 10
  exact List.take_append_of_le_length h10

lemma suggestion_of_mem_getDataTypeOptimizations (n : String)
    (cols : List ColumnDataType) (x : Suggestion)
    (hx : x ∈ getDataTypeOptimizations n cols) :
    ∃ cn cd od, x = { tableName := n, suggestion := dtText cn cd od } := by
  rw [getDataTypeOptimizations_eq] at hx
  rcases List.mem_filterMap.mp hx with ⟨c, _, hc⟩
  unfold dtStep at hc
  rcases hmap : dataTypeMap (jsToLower c.COLUMN_TYPE) with _ | o
  · simp only [hmap] at hc
    exact Option.noConfusion hc
  · simp only [hmap] at hc
    by_cases hne : jsStrictNe (jsToLower c.COLUMN_TYPE) o = true
    · simp only [hne, if_true, Option.some.injEq] at hc
      exact ⟨_, _, _, hc.symm⟩
    · simp [hne] at hc

/-- Away from the inherited `Object.prototype` names, the per-column step
emits a suggestion exactly when the lower-cased type is one of the eight
static map keys (every own entry differs from its key, so the strict
inequality at line 163 never suppresses an own hit). -/
lemma dtStep_isSome_of_not_proto (n : String) (c : ColumnDataType)
    (hp : jsToLower c.COLUMN_TYPE ∉ objectProtoKeys) :
    ((dtStep n c).isSome = true ↔ jsToLower c.COLUMN_TYPE ∈ dataTypeKeys) := by
  by_cases ht : jsToLower c.COLUMN_TYPE ∈ dataTypeKeys
  · simp only [ht, iff_true]
    have ht' := ht
    unfold dataTypeKeys at ht'
    unfold dtStep
    simp only [List.mem_cons, List.not_mem_nil, or_false] at ht'
    rcases ht' with h | h | h | h | h | h | h | h <;> rw [h] <;> rfl
  · simp only [ht, iff_false]
    have hnone : dataTypeMap (jsToLower c.COLUMN_TYPE) = none :=
      (dataTypeMap_eq_none_iff _).mpr ⟨ht, hp⟩
    unfold dtStep
    rw [hnone]
    simp

lemma mem_of_mem_ite_nil {α : Type} {x : α} {l : List α} {p : Prop} [Decidable p]
    (h : x ∈ if p then l else []) : x ∈ l := by
  by_cases hp : p
  · rwa [if_pos hp] at h
  · rw [if_neg hp] at h
    cases h

/-- Membership in the per-table suggestion list, rule by rule. -/
lemma mem_tableRuleSuggestions (x : Suggestion) (n : String) (ts : TableStats) :
    x ∈ tableRuleSuggestions n ts ↔
      (ts.indexCount = 0 ∧ x = { tableName := n, suggestion := addIndexText }) ∨
      (100000 < ts.rowCount ∧ x = { tableName := n, suggestion := partitionText }) ∨
      (0 < ts.columnCardinality.length ∧
        x = { tableName := n, suggestion := cardinalityText ts.columnCardinality }) ∨
      (0 < ts.unusedIndexes.length ∧
        x = { tableName := n, suggestion := unusedText ts.unusedIndexes }) ∨
      (ts.hasForeignKeys = false ∧ x = { tableName := n, suggestion := fkText }) ∨
      x ∈ getDataTypeOptimizations n ts.columnDataTypes := by
  unfold tableRuleSuggestions
  by_cases h6 : 0 < (getDataTypeOptimizations n ts.columnDataTypes).length
  · simp [List.mem_append, List.mem_ite_nil_right, h6]
  · have hnil : getDataTypeOptimizations n ts.columnDataTypes = [] := by
      cases hg : getDataTypeOptimizations n ts.columnDataTypes with
      | nil => rfl
      | cons a l => rw [hg] at h6; simp at h6
    simp [List.mem_append, List.mem_ite_nil_right, h6, hnil]

/-- On a fully populated statistics record the JavaScript rule evaluation
succeeds and produces exactly the pure rule list. -/
lemma tableRuleSuggestionsRaw_toRaw (n : String) (ts : TableStats) :
    tableRuleSuggestionsRaw n (toRaw ts) = Except.ok (tableRuleSuggestions n ts) := by
  unfold tableRuleSuggestionsRaw toRaw tableRuleSuggestions jsStrictEqZero jsGtNum jsTruthy jsField
  simp only [beq_iff_eq, decide_eq_true_eq]

lemma analyzeTables_ok_ok (env : DbEnv) (s : List Suggestion)
    (hc : env.connectOk = true) (h : tablesLoop env (getTableNames env) = Except.ok s) :
    analyzeTables env initialState =
      { result := s
        finalState := { connection := some { state := ConnState.disconnected } }
        trace := [OpEvent.createConnection, OpEvent.connectCall,
          OpEvent.closeInvoked, OpEvent.endCall] } := by
  unfold analyzeTables
  rw [hc, h]
  rfl

lemma analyzeTables_ok_err (env : DbEnv) (e : JsError)
    (hc : env.connectOk = true) (h : tablesLoop env (getTableNames env) = Except.error e) :
    analyzeTables env initialState =
      { result := []
        finalState := { connection := some { state := ConnState.disconnected } }
        trace := [OpEvent.createConnection, OpEvent.connectCall,
          OpEvent.closeInvoked, OpEvent.endCall] } := by
  unfold analyzeTables
  rw [hc, h]
  rfl

lemma analyzeTables_connect_fail (env : DbEnv) (hc : env.connectOk = false) :
    analyzeTables env initialState =
      { result := []
        finalState := { connection := some { state := ConnState.disconnected } }
        trace := [OpEvent.createConnection, OpEvent.connectCall, OpEvent.closeInvoked] } := by
  unfold analyzeTables
  rw [hc]
  rfl

/-- A table whose five queries all succeed: no indexes, five rows, no
low-cardinality rows, no status rows, no columns. -/
def qZeroIndex : TableQueryResults :=
  { indexes := [], rowCount := 5, columnCardinality := [], tableStatus := [],
    columnDataTypes := [] }

/-- A database in which `t1`'s analysis fails (one of its five queries
rejects, so `analyzeTable` returns the empty object) while `t2` is healthy
and has no indexes. -/
def envC1 : DbEnv :=
  { connectOk := true, showTablesOk := true, tableNames := ["t1", "t2"],
    tableData := fun n => if n = "t2" then some qZeroIndex else none }

/-- A database with a single healthy, indexless table. -/
def envHealthy : DbEnv :=
  { connectOk := true, showTablesOk := true, tableNames := ["t"],
    tableData := fun _ => some qZeroIndex }

/-- The empty object `{}` returned by `analyzeTable`'s catch block, as seen
through its field reads. -/
def emptyRawStats : RawStats :=
  { indexCount := none, rowCount := none, columnCardinality := none,
    unusedIndexes := none, hasForeignKeys := none, columnDataTypes := none }

/-- Statistics of a table with one index, 150000 rows and nothing else. -/
def tsRows150k : TableStats :=
  { indexCount := 1, rowCount := 150000, columnCardinality := [],
    unusedIndexes := [], hasForeignKeys := true, columnDataTypes := [] }

/-- Statistics of a table with one index, exactly 100000 rows and nothing else. -/
def tsRows100k : TableStats :=
  { indexCount := 1, rowCount := 100000, columnCardinality := [],
    unusedIndexes := [], hasForeignKeys := true, columnDataTypes := [] }

/-- Statistics of a large table with no indexes and nothing else. -/
def tsNoIndex : TableStats :=
  { indexCount := 0, rowCount := 150000, columnCardinality := [],
    unusedIndexes := [], hasForeignKeys := true, columnDataTypes := [] }

/-- C1: `analyzeTable` does catch a failed per-table query, log it and return
an empty statistics record (first two conjuncts), but `analyzeTables` does
NOT treat that empty record as "no suggestions derivable": evaluating the
rules on the empty record throws a `TypeError` (reading
`tableStats.columnCardinality.length` of `undefined`), which the top-level
catch turns into an empty overall result — the remaining tables are not
processed.  Here `t2` alone would have produced two suggestions (third
conjunct), yet the run with failing `t1` before it returns `[]` (fourth
conjunct). -/
theorem C1_failed_table_aborts_run :
    analyzeTable none = emptyRawStats ∧
    tableRuleSuggestionsRaw "t1" (analyzeTable (envC1.tableData "t1")) =
      Except.error JsError.typeError ∧
    tableRuleSuggestionsRaw "t2" (analyzeTable (envC1.tableData "t2")) =
      Except.ok [{ tableName := "t2", suggestion := addIndexText },
        { tableName := "t2", suggestion := fkText }] ∧
    (analyzeTables envC1 initialState).result = [] :=
  ⟨rfl, rfl, rfl, by decide⟩

/-- C2 (amended): unused-index extraction splits each table-status comment on
commas, keeps exactly the fragments containing `"Unused"`, and when any
remain emits one entry joining them with the owning table name; for the
comment `"Unused, index_a; Active, index_b"` the comma-fragments are
`"Unused"`, `" index_a; Active"`, `" index_b"`, of which only `"Unused"`
survives, so the single emitted entry has `index_name` exactly `"Unused"`. -/
theorem C2_unused_extraction :
    (∀ rows : List TableStatusRow, computeUnusedIndexes rows = rows.filterMap unusedStep) ∧
    jsSplit "Unused, index_a; Active, index_b" ',' =
      ["Unused", " index_a; Active", " index_b"] ∧
    computeUnusedIndexes [{ Comment := "Unused, index_a; Active, index_b", Name := "users" }] =
      [{ index_name := "Unused", table_name := "users" }] ∧
    jsIncludes "Unused" "Unused" = true :=
  ⟨computeUnusedIndexes_eq, by decide, by decide, by decide⟩

/-- C2 counterexample: for the claim's own comment the single extracted entry
has `index_name` exactly `"Unused"`, and that string does not contain
`"Unused, index_a"` — so the entry the claim promises does not exist. -/
theorem C2_counterexample :
    computeUnusedIndexes [{ Comment := "Unused, index_a; Active, index_b", Name := "users" }] =
      [{ index_name := "Unused", table_name := "users" }] ∧
    jsIncludes "Unused" "Unused, index_a" = false :=
  ⟨by decide, by decide⟩

/-- C3 (amended): the connection manager reaches only the states
`disconnected` and `connected`; a successful connect establishes `connected`
and close returns to a disconnected state; `runQuery` issues its query only
against a connected state and promotes `disconnected` to `connected` at most
once per call, never retrying.  However, invoking `connectToDatabase` while
already connected is not a no-op: it reuses the existing connection object
(no `createConnection`) but still issues a driver `connect` call on it
(first conjunct). -/
theorem C3_connection_state_machine :
    (∀ m : ManagerState, needsFresh m = false →
      connectToDatabase true m =
        (Except.ok (), { connection := some { state := ConnState.connected } },
          [OpEvent.connectCall])) ∧
    (∀ (connectOk queryOk : Bool) (m : ManagerState),
      OpEvent.queryCall ∈ (runQuery connectOk queryOk m).2.2 →
        (runQuery connectOk queryOk m).2.1 =
          { connection := some { state := ConnState.connected } }) ∧
    (∀ (connectOk queryOk : Bool) (m : ManagerState),
      ((runQuery connectOk queryOk m).2.2).count OpEvent.connectCall ≤ 1) ∧
    (∀ m : ManagerState,
      (connectToDatabase true m).2.1 =
        { connection := some { state := ConnState.connected } }) ∧
    (∀ m : ManagerState, isDisconnected (closeConnection m).1 = true) := by
  refine ⟨?_, ?_, ?_, ?_, ?_⟩
  · intro m h
    rcases m with ⟨_ | ⟨⟨st⟩⟩⟩
    · exact absurd h (by decide)
    · cases st
      · exact absurd h (by decide)
      · rfl
  · intro cok qok m
    rcases m with ⟨_ | ⟨⟨st⟩⟩⟩
    · cases cok <;> cases qok <;> decide
    · cases st <;> cases cok <;> cases qok <;> decide
  · intro cok qok m
    rcases m with ⟨_ | ⟨⟨st⟩⟩⟩
    · cases cok <;> cases qok <;> decide
    · cases st <;> cases cok <;> cases qok <;> decide
  · intro m
    rcases m with ⟨_ | ⟨⟨st⟩⟩⟩
    · rfl
    · cases st <;> rfl
  · intro m
    rcases m with ⟨_ | ⟨⟨st⟩⟩⟩
    · rfl
    · cases st <;> rfl

/-- C3 counterexample: invoking `connectToDatabase` on an already-connected
manager still emits a driver interaction (the `connect` call), so it is not
a no-op. -/
theorem C3_counterexample_connect_while_connected :
    (connectToDatabase true { connection := some { state := ConnState.connected } }).2.2 ≠
      ([] : List OpEvent) := by
  decide

/-- C3 witness: the amended theorem applied to a connected manager and to a
fresh query call. -/
theorem C3_witness :
    connectToDatabase true { connection := some { state := ConnState.connected } } =
      (Except.ok (), { connection := some { state := ConnState.connected } },
        [OpEvent.connectCall]) ∧
    (runQuery true true initialState).2.1 =
      { connection := some { state := ConnState.connected } } :=
  ⟨C3_connection_state_machine.1 _ rfl,
   C3_connection_state_machine.2.1 true true initialState (by decide)⟩

/-- C4: `hasForeignKeys` holds exactly when some index entry has
`Key_name ≠ "PRIMARY"`, `Index_type = "BTREE"` and `Non_unique = 0`; it is
the field `analyzeTable` stores for a successfully analyzed table, and the
two concrete index lists from the claim evaluate as stated. -/
theorem C4_hasForeignKeys_characterization :
    (∀ indexes : List IndexEntry, hasForeignKeys indexes = true ↔
      ∃ e ∈ indexes, e.Key_name ≠ "PRIMARY" ∧ e.Index_type = "BTREE" ∧ e.Non_unique = 0) ∧
    (∀ q : TableQueryResults,
      (analyzeTable (some q)).hasForeignKeys = some (hasForeignKeys q.indexes)) ∧
    hasForeignKeys [{ Key_name := "PRIMARY", Index_type := "BTREE", Non_unique := 0 }] = false ∧
    hasForeignKeys [{ Key_name := "PRIMARY", Index_type := "BTREE", Non_unique := 0 },
      { Key_name := "idx_user", Index_type := "BTREE", Non_unique := 0 }] = true := by
  refine ⟨?_, fun q => rfl, by decide, by decide⟩
  intro indexes
  simp [hasForeignKeys, List.any_eq_true, Bool.and_eq_true, bne_iff_ne, beq_iff_eq,
    and_assoc]

/-- C5: the partitioning rule has a strict boundary at 100000: a partitioning
suggestion for a table is emitted iff `rowCount > 100000`; a table with
150000 rows (and nothing else noteworthy except present foreign keys) yields
exactly the partitioning suggestion, and one with exactly 100000 rows yields
none.  The second conjunct ties the pure rule list to the JavaScript
evaluation path. -/
theorem C5_partition_strict_threshold :
    (∀ (n : String) (ts : TableStats),
      ({ tableName := n, suggestion := partitionText } : Suggestion) ∈
          tableRuleSuggestions n ts ↔ 100000 < ts.rowCount) ∧
    (∀ (n : String) (ts : TableStats),
      tableRuleSuggestionsRaw n (toRaw ts) = Except.ok (tableRuleSuggestions n ts)) ∧
    tableRuleSuggestions "t" tsRows150k =
      [{ tableName := "t", suggestion := partitionText }] ∧
    tableRuleSuggestions "t" tsRows100k = [] := by
  refine ⟨?_, tableRuleSuggestionsRaw_toRaw, by decide, by decide⟩
  intro n ts
  rw [mem_tableRuleSuggestions]
  constructor
  · rintro (⟨_, hx⟩ | ⟨h, _⟩ | ⟨_, hx⟩ | ⟨_, hx⟩ | ⟨_, hx⟩ | hx)
    · have hs : partitionText = addIndexText := congrArg Suggestion.suggestion hx
      exact absurd hs (by decide)
    · exact h
    · have hs : partitionText = cardinalityText ts.columnCardinality :=
        congrArg Suggestion.suggestion hx
      exact absurd hs (ne_lit_append _ _ _ (by decide) (by decide))
    · have hs : partitionText = unusedText ts.unusedIndexes :=
        congrArg Suggestion.suggestion hx
      exact absurd hs (ne_lit_append _ _ _ (by decide) (by decide))
    · have hs : partitionText = fkText := congrArg Suggestion.suggestion hx
      exact absurd hs (by decide)
    · rcases suggestion_of_mem_getDataTypeOptimizations n _ _ hx with ⟨cn, cd, od, hx2⟩
      have hs : partitionText = dtText cn cd od := congrArg Suggestion.suggestion hx2
      exact absurd hs (ne_lit_append _ _ _ (by decide) (by decide))
  · intro h
    exact Or.inr (Or.inl ⟨h, rfl⟩)

/-- C6 (amended): `getDataTypeOptimizations` is a pure function equal to the
column-wise lookup pass in input column order (first conjunct); a static
downgrade-map entry exists exactly for the eight keys (second conjunct); and
for every column whose lower-cased declared type is not an inherited
`Object.prototype` property name, a suggestion is emitted exactly when a
mapped value exists in the static downgrade map — which then always differs
from the current value (third conjunct).  On the claim's example exactly one
suggestion is emitted, for column "age" (fourth conjunct).  The "exactly
when" cannot be extended to all columns: inherited prototype properties such
as `constructor` slip past the truthiness guard (see the counterexample). -/
theorem C6_data_type_pass :
    (∀ (tableName : String) (cols : List ColumnDataType),
      getDataTypeOptimizations tableName cols = cols.filterMap (dtStep tableName)) ∧
    (∀ t : String, (∃ v, dataTypeMap t = some (MapHit.own v)) ↔ t ∈ dataTypeKeys) ∧
    (∀ (n : String) (c : ColumnDataType), jsToLower c.COLUMN_TYPE ∉ objectProtoKeys →
      ((dtStep n c).isSome = true ↔ jsToLower c.COLUMN_TYPE ∈ dataTypeKeys)) ∧
    getDataTypeOptimizations "t" [{ COLUMN_NAME := "age", COLUMN_TYPE := "int" },
      { COLUMN_NAME := "name", COLUMN_TYPE := "varchar" }] =
      [{ tableName := "t",
         suggestion := "Consider optimizing data type of column \"age\" from \"int\" to \"smallint\" to save storage space." }] :=
  ⟨getDataTypeOptimizations_eq, dataTypeMap_own_iff, dtStep_isSome_of_not_proto, by decide⟩

/-- C6 counterexample: for a column declared `constructor` — not a key of the
static eight-entry downgrade map — the lookup finds the inherited
`Object.prototype.constructor` (the `Object` function), which is truthy and
strictly unequal to the string, so the code emits a (garbage) suggestion:
the claim's "exactly when a mapped value exists" biconditional fails. -/
theorem C6_counterexample_prototype_chain :
    "constructor" ∉ dataTypeKeys ∧
    jsToLower "constructor" = "constructor" ∧
    getDataTypeOptimizations "t" [{ COLUMN_NAME := "c", COLUMN_TYPE := "constructor" }] =
      [{ tableName := "t",
         suggestion := dtText "c" "constructor" (jsDisplay (MapHit.builtinFn "Object")) }] :=
  ⟨by decide, by decide, by decide⟩

/-- C6 witness: the restricted biconditional applied to the "age"/"int"
column of the claim's example. -/
theorem C6_witness :
    (dtStep "t" { COLUMN_NAME := "age", COLUMN_TYPE := "int" }).isSome = true ↔
      jsToLower ({ COLUMN_NAME := "age", COLUMN_TYPE := "int" } : ColumnDataType).COLUMN_TYPE ∈
        dataTypeKeys :=
  C6_data_type_pass.2.2.1 "t" { COLUMN_NAME := "age", COLUMN_TYPE := "int" } (by decide)

/-- C7: for a successfully analyzed table with zero indexes the "add an
index" suggestion is the first suggestion emitted for that table, it occurs
exactly once, and its text differs from the partitioning text, so it appears
before any row-count-based suggestion for the same table. -/
theorem C7_add_index_first (n : String) (ts : TableStats) (h : ts.indexCount = 0) :
    (tableRuleSuggestions n ts).head? =
        some { tableName := n, suggestion := addIndexText } ∧
    ((tableRuleSuggestions n ts).filter
        (fun x => x.suggestion == addIndexText)).length = 1 ∧
    addIndexText ≠ partitionText := by
  have hp2 : partitionText ≠ addIndexText := by decide
  have hp3 : cardinalityText ts.columnCardinality ≠ addIndexText :=
    Ne.symm (ne_lit_append _ _ _ (by decide) (by decide))
  have hp4 : unusedText ts.unusedIndexes ≠ addIndexText :=
    Ne.symm (ne_lit_append _ _ _ (by decide) (by decide))
  have hp5 : fkText ≠ addIndexText := by decide
  have hp6 : ∀ x ∈ getDataTypeOptimizations n ts.columnDataTypes,
      x.suggestion ≠ addIndexText := by
    intro x hx
    rcases suggestion_of_mem_getDataTypeOptimizations n _ _ hx with ⟨cn, cd, od, hx2⟩
    rw [hx2]
    exact Ne.symm (ne_lit_append _ _ _ (by decide) (by decide))
  refine ⟨?_, ?_, by decide⟩
  · unfold tableRuleSuggestions
    rw [if_pos h]
    rfl
  · unfold tableRuleSuggestions
    rw [if_pos h]
    by_cases h2 : 100000 < ts.rowCount <;>
    by_cases h3 : 0 < ts.columnCardinality.length <;>
    by_cases h4 : 0 < ts.unusedIndexes.length <;>
    by_cases h5 : ts.hasForeignKeys = false <;>
    by_cases hdt : 0 < (getDataTypeOptimizations n ts.columnDataTypes).length <;>
      simp [h2, h3, h4, h5, hdt, hp2, hp3, hp4, hp5, List.filter_append] <;>
      exact hp6

/-- C7 witness: the theorem applied to a concrete zero-index table. -/
theorem C7_witness :
    (tableRuleSuggestions "users" tsNoIndex).head? =
      some { tableName := "users", suggestion := addIndexText } ∧
    ((tableRuleSuggestions "users" tsNoIndex).filter
        (fun x => x.suggestion == addIndexText)).length = 1 ∧
    addIndexText ≠ partitionText :=
  C7_add_index_first "users" tsNoIndex rfl

/-- C8: every `analyzeTables` run invokes `closeConnection` exactly once, the
driver-level close happens exactly once when the connection was established
and never otherwise; a successful run returns the loop's full ordered
suggestion sequence, and any top-level failure (failed connect or an
exception escaping the table loop) yields the empty sequence instead of
re-raising. -/
theorem C8_connection_closed_once (env : DbEnv) :
    (analyzeTables env initialState).trace.count OpEvent.closeInvoked = 1 ∧
    (analyzeTables env initialState).trace.count OpEvent.endCall =
      (if env.connectOk then 1 else 0) ∧
    (env.connectOk = false → (analyzeTables env initialState).result = []) ∧
    (∀ e, tablesLoop env (getTableNames env) = Except.error e →
      (analyzeTables env initialState).result = []) ∧
    (∀ s, env.connectOk = true → tablesLoop env (getTableNames env) = Except.ok s →
      (analyzeTables env initialState).result = s) := by
  cases hc : env.connectOk with
  | false =>
    have hA := analyzeTables_connect_fail env hc
    rw [hA]
    exact ⟨rfl, rfl, fun _ => rfl, fun e _ => rfl,
      fun s hs _ => Bool.noConfusion hs⟩
  | true =>
    cases hloop : tablesLoop env (getTableNames env) with
    | error e =>
      have hA := analyzeTables_ok_err env e hc hloop
      rw [hA]
      exact ⟨rfl, rfl, fun hf => Bool.noConfusion hf, fun e' _ => rfl,
        fun s' _ hs' => Except.noConfusion hs'⟩
    | ok s =>
      have hA := analyzeTables_ok_ok env s hc hloop
      rw [hA]
      exact ⟨rfl, rfl, fun hf => Bool.noConfusion hf,
        fun e' he' => Except.noConfusion he', fun s' _ hs' => Except.ok.inj hs'⟩

/-- C8 witness: a run over one healthy indexless table closes once and
returns that table's two suggestions. -/
theorem C8_witness :
    (analyzeTables envHealthy initialState).trace.count OpEvent.closeInvoked = 1 ∧
    (analyzeTables envHealthy initialState).result =
      [{ tableName := "t", suggestion := addIndexText },
       { tableName := "t", suggestion := fkText }] :=
  ⟨(C8_connection_closed_once envHealthy).1,
   (C8_connection_closed_once envHealthy).2.2.2.2 _ rfl rfl⟩

/-- C9: `closeConnection` never errors (it is a total function), always
leaves a disconnected state, and a second call in succession is a pure
no-op at the driver level (state unchanged, no `end` call); it is equally
safe on a never-opened manager. -/
theorem C9_close_idempotent :
    (∀ m : ManagerState,
      isDisconnected (closeConnection m).1 = true ∧
      closeConnection (closeConnection m).1 =
        ((closeConnection m).1, [OpEvent.closeInvoked])) ∧
    closeConnection initialState = (initialState, [OpEvent.closeInvoked]) := by
  refine ⟨?_, rfl⟩
  intro m
  rcases m with ⟨_ | ⟨⟨st⟩⟩⟩
  · exact ⟨rfl, rfl⟩
  · cases st
    · exact ⟨rfl, rfl⟩
    · exact ⟨rfl, rfl⟩

/-- C10 (amended): the lookup finds a value only for the entire lower-cased
declared type string equal to one of the eight map keys or to an inherited
`Object.prototype` property name (first conjunct); every column whose
lower-cased declared type is neither — any modified type such as
`"int(11)"` or `"varchar(255)"` in particular — produces no suggestion
(second and third conjuncts).  For the inherited names (`constructor`,
`__proto__`, ...) the claim fails: the truthy inherited value passes the
guard and a spurious suggestion is emitted (see the counterexample). -/
theorem C10_whole_string_lookup :
    (∀ t : String, dataTypeMap t = none ↔ (t ∉ dataTypeKeys ∧ t ∉ objectProtoKeys)) ∧
    (∀ (n : String) (cols : List ColumnDataType),
      (∀ c ∈ cols, jsToLower c.COLUMN_TYPE ∉ dataTypeKeys ∧
        jsToLower c.COLUMN_TYPE ∉ objectProtoKeys) →
        getDataTypeOptimizations n cols = []) ∧
    getDataTypeOptimizations "t" [{ COLUMN_NAME := "a", COLUMN_TYPE := "int(11)" },
      { COLUMN_NAME := "b", COLUMN_TYPE := "varchar(255)" }] = [] := by
  refine ⟨dataTypeMap_eq_none_iff, ?_, by decide⟩
  intro n cols h
  rw [getDataTypeOptimizations_eq]
  refine List.filterMap_eq_nil_iff.mpr ?_
  intro c hc
  unfold dtStep
  rw [(dataTypeMap_eq_none_iff _).mpr (h c hc)]

/-- C10 counterexample: `"__proto__"` is not one of the eight map keys, yet
the column declared `__proto__` gets a suggestion — the inherited accessor
returns `Object.prototype`, which is truthy and strictly unequal to the
string — so "no suggestion for any type not equal to one of the eight keys"
is false of the program. -/
theorem C10_counterexample_proto_lookup :
    "__proto__" ∉ dataTypeKeys ∧
    getDataTypeOptimizations "t" [{ COLUMN_NAME := "c", COLUMN_TYPE := "__proto__" }] =
      [{ tableName := "t", suggestion := dtText "c" "__proto__" "[object Object]" }] :=
  ⟨by decide, by decide⟩

/-- C10 witness: the amended theorem applied to the two modified declared
types. -/
theorem C10_witness :
    getDataTypeOptimizations "t" [{ COLUMN_NAME := "a", COLUMN_TYPE := "int(11)" },
      { COLUMN_NAME := "b", COLUMN_TYPE := "varchar(255)" }] = [] :=
  C10_whole_string_lookup.2.1 "t" _ (by decide)

end DatabaseOptimizer
